import Mathlib

/-!
Verification development for the axeevents event/RSVP application.

Shallow embedding of the core business logic:
* `events/models.py` — `User` verification helpers, `Event.is_full`,
  `Event.can_invite_organizer`;
* `events/auth.py` — `AuthService.verify_code`;
* `events/views.py` — the `rsvp_event` and `invite_organizer` handlers;
* `events/tasks.py` — `send_event_reminders` and `process_uploaded_image`.

Times are modelled as natural numbers of seconds (`timezone.now()` becomes an
explicit `now : Nat` argument); database rows become explicit values threaded
through the functions; the random verification code is a parameter.
-/

namespace AxeEvents

/-- `events.models.User`: phone-keyed identity with a nullable 6-digit
verification code and the timestamp it was issued at.
`verification_code_sent_at = none` models the NULL datetime. -/
structure User where
  phone_number : String
  name : String
  verification_code : String
  verification_code_sent_at : Option Nat
  is_verified : Bool
deriving DecidableEq, Repr

/-- `User.generate_verification_code` (models.py:19-23): store the fresh code
and the issuance timestamp.  The random 6-digit code is passed in as `code`. -/
def generate_verification_code (u : User) (code : String) (now : Nat) : User :=
  { u with verification_code := code, verification_code_sent_at := some now }

/-- `User.is_verification_code_expired` (models.py:25-29): true when no code
was ever sent (`not self.verification_code_sent_at`, i.e. NULL) or when
`now` is strictly past issuance + 5 minutes (300 s). -/
def is_verification_code_expired (u : User) (now : Nat) : Bool :=
  match u.verification_code_sent_at with
  | none => true
  | some t => decide (t + 300 < now)

/-- `User.can_resend_code` (models.py:31-35): true when no code was ever sent
or `now` is strictly past issuance + 1 minute (60 s). -/
def can_resend_code (u : User) (now : Nat) : Bool :=
  match u.verification_code_sent_at with
  | none => true
  | some t => decide (t + 60 < now)

/-- Outcome of `AuthService.verify_code`: the Python method returns
`(True, user, None)` on success and `(False, None, "expired" | "invalid" |
"not_found")` on failure; we name the four cases. -/
inductive VerifyResult where
  | success
  | expired
  | invalid
  | not_found
deriving DecidableEq, Repr

/-- `AuthService.verify_code` (auth.py:62-82).  `user?` is the result of the
`User.objects.get(phone_number=...)` lookup (`none` models `DoesNotExist`).
Returns the outcome together with the stored user row after the call:
on a code match it sets `is_verified`, clears the code and clears the
issuance timestamp before saving. -/
def verify_code (user? : Option User) (code : String) (now : Nat) :
    VerifyResult × Option User :=
  match user? with
  | none => (.not_found, none)
  | some u =>
    if is_verification_code_expired u now then
      (.expired, some u)
    else if u.verification_code == code then
      (.success, some { u with
        is_verified := true
        verification_code := ""
        verification_code_sent_at := none })
    else
      (.invalid, some u)

/-- `events.models.EventQuestion`: one question attached to an event.  The
`questions` list on `Event` below is already in the `order_by("order", "id")`
order the view uses, so the `order` column itself is not re-modelled. -/
structure Question where
  id : Nat
  text : String
  is_required : Bool
deriving DecidableEq, Repr

/-- `events.models.Event`: the fields the verified logic reads.  Users are
identified by their ids (`Nat`); `max_attendees` is the nullable capacity;
`cover_photo_processing_status` is the image-pipeline status CharField. -/
structure Event where
  created_by : Nat
  max_attendees : Option Nat
  allow_rsvp : Bool
  allow_maybe_rsvp : Bool
  questions : List Question
  event_state_date : Nat
  is_active : Bool
  reminder_24h_sent : Bool
  reminder_1h_sent : Bool
  auto_reminders_enabled : Bool
  cover_photo_processing_status : String
deriving DecidableEq, Repr

/-- The RSVP rows of one event (`(user id, status)`, unique per user — the
`unique_together = ["user", "event"]` constraint) together with the
`RSVPAnswer` rows (`(user id, question id, answer)`, unique per pair). -/
structure RSVPState where
  rsvps : List (Nat × String)
  answers : List (Nat × Nat × String)
deriving DecidableEq, Repr

/-- `Event.attendee_count` (models.py:128-132): number of RSVPs of this event
with status `"attending"`. -/
def attendee_count (rsvps : List (Nat × String)) : Nat :=
  (rsvps.filter (fun r => r.2 == "attending")).length

/-- `Event.is_full` (models.py:138-142).  Python's `if self.max_attendees:`
is a truthiness test, so both `NULL` and `0` take the `return False` branch;
otherwise full means `attendee_count >= max_attendees`. -/
def is_full (e : Event) (rsvps : List (Nat × String)) : Bool :=
  match e.max_attendees with
  | none => false
  | some n => if n == 0 then false else decide (attendee_count rsvps ≥ n)

/-- Python's `str.strip()`: drop whitespace from both ends of the string
(modelled on the character list so that it evaluates by reduction). -/
def strip (s : String) : String :=
  String.mk
    (((s.data.dropWhile Char.isWhitespace).reverse.dropWhile
        Char.isWhitespace).reverse)

/-- The view's `request.POST.get(f"question_{q.id}", "")` followed by
`.strip()`: look the question up in the posted form data, defaulting to the
empty string, and strip whitespace. -/
def submitted_answer (post : List (Nat × String)) (qid : Nat) : String :=
  strip (((post.find? (fun p => p.1 == qid)).map Prod.snd).getD "")

/-- `RSVP.objects.update_or_create(user=..., event=..., defaults={"status"})`:
replace the user's row if present, else append a fresh one. -/
def upsert_rsvp (rsvps : List (Nat × String)) (uid : Nat) (status : String) :
    List (Nat × String) :=
  if (rsvps.find? (fun r => r.1 == uid)).isSome then
    rsvps.map (fun r => if r.1 == uid then (uid, status) else r)
  else
    rsvps ++ [(uid, status)]

/-- `RSVPAnswer.objects.update_or_create(rsvp=..., question=...,
defaults={"answer": text})`: replace the `(user, question)` row if present,
else append it. -/
def upsert_answer (ans : List (Nat × Nat × String)) (uid qid : Nat)
    (text : String) : List (Nat × Nat × String) :=
  if (ans.find? (fun a => a.1 == uid && a.2.1 == qid)).isSome then
    ans.map (fun a => if a.1 == uid && a.2.1 == qid then (uid, qid, text) else a)
  else
    ans ++ [(uid, qid, text)]

/-- `RSVPAnswer.objects.filter(rsvp=..., question=...).delete()`. -/
def delete_answer (ans : List (Nat × Nat × String)) (uid qid : Nat) :
    List (Nat × Nat × String) :=
  ans.filter (fun a => !(a.1 == uid && a.2.1 == qid))

/-- `rsvp.answers.all().delete()`: drop every answer row of this user's RSVP. -/
def delete_all_answers (ans : List (Nat × Nat × String)) (uid : Nat) :
    List (Nat × Nat × String) :=
  ans.filter (fun a => !(a.1 == uid))

/-- The answer-upsert loop of `rsvp_event` (views.py:655-662): for each event
question in order, upsert the answer when the submitted text is non-empty or
the question is required, else delete any stale answer row. -/
def apply_answers (questions : List Question) (post : List (Nat × String))
    (uid : Nat) (ans : List (Nat × Nat × String)) : List (Nat × Nat × String) :=
  questions.foldl
    (fun acc q =>
      let t := submitted_answer post q.id
      if t != "" || q.is_required then upsert_answer acc uid q.id t
      else delete_answer acc uid q.id)
    ans

/-- The observable outcomes of the `rsvp_event` view body: the silent
creator short-circuit, each `messages.error` rejection, and acceptance
(RSVP written) carrying the stored status string. -/
inductive RSVPOutcome where
  | creator_noop
  | invalid_status
  | rsvp_closed
  | maybe_not_allowed
  | missing_required (missing : List String)
  | event_full
  | accepted (status : String)
deriving DecidableEq, Repr

/-- `rsvp_event` (views.py:574-676), the logged-in POST path.  `uid` is the
acting user, `status` the raw POST status string (already defaulted to
`"attending"` by the view), `post` the raw `question_<id>` form fields, and
`st` the stored RSVP/answer rows of the event.  Returns the outcome and the
rows after the request. -/
def rsvp_event (e : Event) (uid : Nat) (status : String)
    (post : List (Nat × String)) (st : RSVPState) : RSVPOutcome × RSVPState :=
  if e.created_by == uid then (.creator_noop, st)
  else if !(status == "attending" || status == "maybe"
      || status == "not_attending") then (.invalid_status, st)
  else
    let user_existing_rsvp := st.rsvps.find? (fun r => r.1 == uid)
    if !e.allow_rsvp && (status != "not_attending" || user_existing_rsvp.isNone)
    then (.rsvp_closed, st)
    else if status == "maybe" && !e.allow_maybe_rsvp then
      (.maybe_not_allowed, st)
    else
      let requires_answers := status == "attending" || status == "maybe"
      let missing := (e.questions.filter
        (fun q => q.is_required && submitted_answer post q.id == "")).map
        (fun q => q.text)
      if requires_answers && !e.questions.isEmpty && !missing.isEmpty then
        (.missing_required missing, st)
      else if status == "attending" && is_full e st.rsvps
          && !(match user_existing_rsvp with
               | some r => r.2 == "attending"
               | none => false) then
        (.event_full, st)
      else
        let rsvps1 := upsert_rsvp st.rsvps uid status
        let answers1 :=
          if status == "not_attending" then delete_all_answers st.answers uid
          else apply_answers e.questions post uid st.answers
        (.accepted status, { rsvps := rsvps1, answers := answers1 })

/-- `Event.is_organizer` (models.py:144-145): the creator or a member of the
`organizers` many-to-many set. -/
def is_organizer (created_by : Nat) (organizers : List Nat) (uid : Nat) : Bool :=
  created_by == uid || organizers.contains uid

/-- `Event.can_invite_organizer` (models.py:147-148):
`self.organizers.count() < 5`.  The creator is *not* a member of the
`organizers` set (the view rejects inviting the creator), so this counts
co-organizers only. -/
def can_invite_organizer (organizers : List Nat) : Bool :=
  organizers.length < 5

/-- Outcomes of the `invite_organizer` view (views.py:1274-1343): each
rejection message and the successful `organizers.add`. -/
inductive InviteOutcome where
  | not_organizer
  | max_reached
  | invitee_is_creator
  | already_organizer
  | added
deriving DecidableEq, Repr

/-- `invite_organizer` (views.py:1274-1343), the POST path after the phone
number has been normalised and resolved to an existing user `invitee`.
`organizers` is the event's co-organizer set (as a duplicate-free list of
user ids); `actor` is the logged-in user.  Returns the outcome and the
organizer set after the request. -/
def invite_organizer (created_by : Nat) (organizers : List Nat)
    (actor invitee : Nat) : InviteOutcome × List Nat :=
  if !is_organizer created_by organizers actor then (.not_organizer, organizers)
  else if !can_invite_organizer organizers then (.max_reached, organizers)
  else if created_by == invitee then (.invitee_is_creator, organizers)
  else if organizers.contains invitee then (.already_organizer, organizers)
  else (.added, organizers ++ [invitee])

/-- One row of the reminder job's working set: an event paired with the size
of its `RSVP.objects.filter(event=event, status="attending")` recipient set
(one SMS send attempt is made per attending RSVP). -/
abbrev EventRec := Event × Nat

/-- The 24h-window filter of `send_event_reminders` (tasks.py:31-40):
start time within `[now + 23h30m, now + 24h30m]` (84600–88200 s), active,
not yet 24h-reminded, auto-reminders enabled. -/
def matches_24h (now : Nat) (e : Event) : Bool :=
  decide (now + 84600 ≤ e.event_state_date)
    && decide (e.event_state_date ≤ now + 88200)
    && e.is_active && !e.reminder_24h_sent && e.auto_reminders_enabled

/-- The 1h-window filter of `send_event_reminders` (tasks.py:76-85):
start time within `[now + 30m, now + 1h30m]` (1800–5400 s), active, not yet
1h-reminded, auto-reminders enabled. -/
def matches_1h (now : Nat) (e : Event) : Bool :=
  decide (now + 1800 ≤ e.event_state_date)
    && decide (e.event_state_date ≤ now + 5400)
    && e.is_active && !e.reminder_1h_sent && e.auto_reminders_enabled

/-- Processing of one event by the 24h loop (tasks.py:42-74): if selected,
attempt one send per attending RSVP and latch `reminder_24h_sent`; otherwise
leave the event untouched.  Returns the updated row and the number of send
attempts (send failures are counted but change nothing else). -/
def step_24h (now : Nat) (r : EventRec) : EventRec × Nat :=
  if matches_24h now r.1 then
    (({ r.1 with reminder_24h_sent := true }, r.2), r.2)
  else (r, 0)

/-- Processing of one event by the 1h loop (tasks.py:87-119), symmetric to
`step_24h` with the `reminder_1h_sent` latch. -/
def step_1h (now : Nat) (r : EventRec) : EventRec × Nat :=
  if matches_1h now r.1 then
    (({ r.1 with reminder_1h_sent := true }, r.2), r.2)
  else (r, 0)

/-- The 24h pass over the whole event table, accumulating send attempts. -/
def run_24h (now : Nat) (db : List EventRec) : List EventRec × Nat :=
  match db with
  | [] => ([], 0)
  | r :: rest =>
    ((step_24h now r).1 :: (run_24h now rest).1,
      (step_24h now r).2 + (run_24h now rest).2)

/-- The 1h pass over the whole event table, accumulating send attempts. -/
def run_1h (now : Nat) (db : List EventRec) : List EventRec × Nat :=
  match db with
  | [] => ([], 0)
  | r :: rest =>
    ((step_1h now r).1 :: (run_1h now rest).1,
      (step_1h now r).2 + (run_1h now rest).2)

/-- `send_event_reminders` (tasks.py:22-127): run the 24h pass, then the 1h
pass on the updated table (the second queryset is evaluated after the first
loop has saved its flags).  Returns the table after the job and the total
number of SMS send attempts. -/
def send_event_reminders (now : Nat) (db : List EventRec) :
    List EventRec × Nat :=
  let p24 := run_24h now db
  let p1 := run_1h now p24.1
  (p1.1, p24.2 + p1.2)

/-- `max_retries=3` on the celery tasks (tasks.py:22, 130, 176). -/
def max_retries : Nat := 3

/-- The failure modes of one `process_uploaded_image` execution, as inputs of
the model: which model type was requested, whether the staged temp file
exists, whether `Image.open` + `verify()` accepts it, whether the GPS-EXIF
strip succeeds (its failure is logged and non-fatal, tasks.py:211-214), and
whether the storage upload succeeds.  `retries` is `self.request.retries`. -/
structure ImgEnv where
  model_type : String
  temp_file_exists : Bool
  image_valid : Bool
  gps_strip_ok : Bool
  upload_ok : Bool
  retries : Nat
deriving DecidableEq, Repr

/-- What the task invocation does at its boundary: return the success dict,
re-raise via `self.retry(countdown=...)`, or return the structured
`{"success": False, "error": ...}` dict after the retry budget is spent. -/
inductive TaskOutcome where
  | ok
  | retry (countdown : Nat)
  | failed_result
deriving DecidableEq, Repr

/-- The `except Exception` handler of `process_uploaded_image`
(tasks.py:296-312): for the `"event"` model type re-fetch the instance and
set its status to `"failed"`; then retry with countdown `60 * 2 ** retries`
while `retries < max_retries`, else return the structured failure result. -/
def on_image_failure (env : ImgEnv) (inst : Event) : Event × TaskOutcome :=
  let inst :=
    if env.model_type == "event" then
      { inst with cover_photo_processing_status := "failed" }
    else inst
  if env.retries < max_retries then
    (inst, .retry (60 * 2 ^ env.retries))
  else
    (inst, .failed_result)

/-- `process_uploaded_image` (tasks.py:176-312) acting on the target `Event`
row.  An unknown `model_type` raises before any status change; otherwise the
status is set to `"processing"`, and a missing temp file, a corrupt image or
a failed storage upload raises into the `except` handler.  The GPS-EXIF strip
failure (`env.gps_strip_ok = false`) is swallowed (logged only) and
processing continues; on full success both derivative URLs are stored and
the status becomes `"complete"`. -/
def process_uploaded_image (env : ImgEnv) (inst : Event) :
    Event × TaskOutcome :=
  if env.model_type != "event" then
    on_image_failure env inst
  else
    let inst := { inst with cover_photo_processing_status := "processing" }
    if !env.temp_file_exists then on_image_failure env inst
    else if !env.image_valid then on_image_failure env inst
    else if !env.upload_ok then on_image_failure env inst
    else ({ inst with cover_photo_processing_status := "complete" }, .ok)

/-- A fresh user row as created by `User.objects.get_or_create(phone_number)`:
no code issued yet, not verified. -/
def freshUser : User :=
  { phone_number := "+15551234567"
    name := "A"
    verification_code := ""
    verification_code_sent_at := none
    is_verified := false }

/-- A user holding the code `"123456"` issued at time 0. -/
def codedUser : User :=
  { phone_number := "+15551234567"
    name := "A"
    verification_code := "123456"
    verification_code_sent_at := some 0
    is_verified := false }

/-- The user row stored by a successful verification of `codedUser`. -/
def verifiedUser : User :=
  { codedUser with
    is_verified := true
    verification_code := ""
    verification_code_sent_at := none }

/-- A cover-photo target event in its pre-processing state. -/
def sampleEvent : Event :=
  { created_by := 0
    max_attendees := none
    allow_rsvp := true
    allow_maybe_rsvp := true
    questions := []
    event_state_date := 100000
    is_active := true
    reminder_24h_sent := false
    reminder_1h_sent := false
    auto_reminders_enabled := true
    cover_photo_processing_status := "pending" }

/-- An event one day away from `now = 0`, inside the 24h reminder window. -/
def reminderEvent : Event :=
  { sampleEvent with event_state_date := 86400 }

/-- Lookup of the `RSVPAnswer` row for one user's RSVP and one question
(`RSVPAnswer.objects.filter(rsvp=..., question=...)`, unique by the
`unique_together` constraint): the stored answer text, if any. -/
def get_answer (ans : List (Nat × Nat × String)) (uid qid : Nat) :
    Option String :=
  (ans.find? (fun a => a.1 == uid && a.2.1 == qid)).map (fun a => a.2.2)

/-- An event with `max_attendees = 0` (storable in the PositiveIntegerField,
though the create/edit forms reject non-positive values). -/
def capZeroEvent : Event :=
  { sampleEvent with max_attendees := some 0 }

/-- An event with capacity 1. -/
def capOneEvent : Event :=
  { sampleEvent with max_attendees := some 1 }

/-- An event with a single required question. -/
def requiredQuestionEvent : Event :=
  { sampleEvent with
    questions := [{ id := 1, text := "Dietary restrictions?",
                    is_required := true }] }

/-- An event with an optional question and a required question. -/
def answersEvent : Event :=
  { sampleEvent with
    questions := [{ id := 1, text := "Dietary restrictions?",
                    is_required := false },
                  { id := 2, text := "Song request?", is_required := true }] }

/-- C1, counterexample to the claim as stated: issue a code, verify it
successfully, then verify the same code again — the second call fails, but
with the `expired` outcome, not `invalid`, because the successful call
cleared `verification_code_sent_at` and `is_verification_code_expired`
treats a NULL timestamp as expired. -/
theorem verify_code_reuse_counterexample :
    (verify_code (some (generate_verification_code freshUser "123456" 0))
      "123456" 10).1 = VerifyResult.success
    ∧ (verify_code
        (verify_code (some (generate_verification_code freshUser "123456" 0))
          "123456" 10).2 "123456" 20).1 = VerifyResult.expired
    ∧ VerifyResult.expired ≠ VerifyResult.invalid := by
  refine ⟨rfl, rfl, by decide⟩

/-- C1 (amended): after any successful `verify_code`, a second call with the
same (or any) code at any later time fails with the `expired` outcome and
leaves the user row unchanged — the code is single-use, but the reuse error
is `expired`, not `invalid`. -/
theorem verify_code_single_use (u u' : User) (code : String) (now now' : Nat)
    (h : verify_code (some u) code now = (.success, some u')) :
    verify_code (some u') code now' = (.expired, some u') := by
  have hu' : u'.verification_code_sent_at = none := by
    simp only [verify_code] at h
    split at h
    · simp at h
    · split at h
      · have h2 : some ({ u with
              is_verified := true
              verification_code := ""
              verification_code_sent_at := none } : User) = some u' :=
          congrArg Prod.snd h
        simp only [Option.some.injEq] at h2
        rw [← h2]
      · simp at h
  simp [verify_code, is_verification_code_expired, hu']

/-- Witness for `verify_code_single_use` at a concrete successful
verification of `codedUser`. -/
theorem verify_code_single_use_witness :
    verify_code (some verifiedUser) "123456" 400 =
      (.expired, some verifiedUser) :=
  verify_code_single_use codedUser verifiedUser "123456" 10 400 rfl

/-- C7: a verification code issued at time `T` is rejected with the
`expired` outcome at any time strictly later than `T` + 5 minutes, whatever
code is submitted (the expiry check precedes the code comparison), and the
user row is left unchanged. -/
theorem verify_code_expired_after_five_minutes
    (u : User) (code : String) (now T : Nat)
    (hT : u.verification_code_sent_at = some T) (hnow : T + 300 < now) :
    verify_code (some u) code now = (.expired, some u) := by
  simp [verify_code, is_verification_code_expired, hT, hnow]

/-- Witness for `verify_code_expired_after_five_minutes`: the matching code
issued at `T = 0` is rejected as expired at `now = 301` (T + 5 min + 1 s). -/
theorem verify_code_expired_after_five_minutes_witness :
    verify_code (some codedUser) "123456" 301 = (.expired, some codedUser) :=
  verify_code_expired_after_five_minutes codedUser "123456" 301 0 rfl
    (by decide)

/-- C10: `verify_code` is atomic on the user row — whenever the outcome is
not `success` (i.e. `not_found`, `expired` or `invalid`), the stored user is
returned exactly as it was looked up; only the success path mutates it. -/
theorem verify_code_failure_pure (user? : Option User) (code : String)
    (now : Nat) (h : (verify_code user? code now).1 ≠ .success) :
    (verify_code user? code now).2 = user? := by
  cases user? with
  | none => rfl
  | some u =>
    by_cases h1 : is_verification_code_expired u now
    · simp [verify_code, h1]
    · by_cases h2 : (u.verification_code == code)
      · exact absurd (by simp [verify_code, h1, h2]) h
      · simp [verify_code, h1, h2]

/-- Witness for `verify_code_failure_pure` at a concrete invalid-code call. -/
theorem verify_code_failure_pure_witness :
    (verify_code (some codedUser) "654321" 10).2 = some codedUser :=
  verify_code_failure_pure (some codedUser) "654321" 10 (by decide)

/-- C4, counterexample to the claim as stated: an event whose creator is
user 0 with four co-organizers accepts a fifth co-organizer
(`can_invite_organizer` only requires `organizers.count() < 5`), after which
the total number of organizers including the creator is 6 > 5. -/
theorem invite_organizer_total_counterexample :
    invite_organizer 0 [1, 2, 3, 4] 0 5 = (.added, [1, 2, 3, 4, 5])
    ∧ 5 < ([1, 2, 3, 4, 5] : List Nat).length + 1 := by
  refine ⟨rfl, by decide⟩

/-- C4 (amended): the *co-organizer* set (excluding the creator) never grows
beyond 5 — an invitation is accepted only while there are fewer than 5
co-organizers — so the total including the creator is bounded by 6, not 5. -/
theorem invite_organizer_coorganizer_cap (created_by : Nat)
    (organizers : List Nat) (actor invitee : Nat)
    (h : organizers.length ≤ 5) :
    (invite_organizer created_by organizers actor invitee).2.length ≤ 5
    ∧ ((invite_organizer created_by organizers actor invitee).1
        = .added → organizers.length < 5) := by
  by_cases ho : is_organizer created_by organizers actor
  · by_cases hcap : can_invite_organizer organizers
    · by_cases hcr : created_by = invitee
      · subst hcr
        simpa [invite_organizer, ho, hcap] using h
      · by_cases hcont : invitee ∈ organizers
        · simpa [invite_organizer, ho, hcap, hcr, hcont] using h
        · have hlt : organizers.length < 5 := by
            simpa [can_invite_organizer] using hcap
          simp [invite_organizer, ho, hcap, hcr, hcont]
          omega
    · simpa [invite_organizer, ho, hcap] using h
  · simpa [invite_organizer, ho] using h

/-- Witness for `invite_organizer_coorganizer_cap` at a concrete
invitation. -/
theorem invite_organizer_coorganizer_cap_witness :
    (invite_organizer 0 [1, 2] 0 3).2.length ≤ 5
    ∧ ((invite_organizer 0 [1, 2] 0 3).1 = .added →
        ([1, 2] : List Nat).length < 5) :=
  invite_organizer_coorganizer_cap 0 [1, 2] 0 3 (by decide)

/-- C2, counterexample to the claim as stated: an image-validation failure
(corrupt staged file, `image_valid = false`) on the first attempt marks the
status `failed` but *is* retried — the generic `except Exception` handler
schedules `self.retry(countdown=60 * 2 ** 0)` exactly as it would for a
gateway failure. -/
theorem process_corrupt_retried_counterexample :
    process_uploaded_image
      { model_type := "event", temp_file_exists := true, image_valid := false,
        gps_strip_ok := true, upload_ok := true, retries := 0 } sampleEvent =
      ({ sampleEvent with cover_photo_processing_status := "failed" },
        .retry 60)
    ∧ TaskOutcome.retry 60 ≠ TaskOutcome.failed_result := by
  refine ⟨rfl, by decide⟩

/-- C2 (amended): a corrupt staged file marks the target's status `failed`
immediately, but the failure is retried exactly like every other exception:
up to 3 attempts with countdown `60 * 2 ^ retries`, then the structured
failure result — the code does not special-case image-validation failures. -/
theorem process_corrupt_marks_failed (env : ImgEnv) (inst : Event)
    (hm : env.model_type = "event") (ht : env.temp_file_exists = true)
    (hc : env.image_valid = false) :
    process_uploaded_image env inst =
      ({ inst with cover_photo_processing_status := "failed" },
        if env.retries < max_retries then .retry (60 * 2 ^ env.retries)
        else .failed_result) := by
  by_cases hr : env.retries < max_retries <;>
    simp [process_uploaded_image, on_image_failure, hm, ht, hc, hr]

/-- Witness for `process_corrupt_marks_failed` on the final attempt
(`retries = 3`): status `failed` and the structured failure result. -/
theorem process_corrupt_marks_failed_witness :
    process_uploaded_image
      { model_type := "event", temp_file_exists := true, image_valid := false,
        gps_strip_ok := true, upload_ok := true, retries := 3 } sampleEvent =
      ({ sampleEvent with cover_photo_processing_status := "failed" },
        if (3 : Nat) < max_retries then .retry (60 * 2 ^ 3)
        else .failed_result) :=
  process_corrupt_marks_failed _ sampleEvent rfl rfl rfl

/-- C6: for any failing execution of `process_uploaded_image` on an event
target, the stored status is `failed` whenever a retry is scheduled or the
budget is exhausted; retries carry countdown `60 * 2 ^ retries` and only
happen while `retries < 3`; after the budget the task returns the structured
failure result; and the status is never left at `processing`. -/
theorem process_uploaded_image_failure_policy (env : ImgEnv) (inst : Event)
    (hm : env.model_type = "event") :
    ((process_uploaded_image env inst).2 = .failed_result →
      (process_uploaded_image env inst).1.cover_photo_processing_status
        = "failed" ∧ max_retries ≤ env.retries)
    ∧ (∀ c, (process_uploaded_image env inst).2 = .retry c →
        (process_uploaded_image env inst).1.cover_photo_processing_status
          = "failed" ∧ c = 60 * 2 ^ env.retries ∧ env.retries < max_retries)
    ∧ ((process_uploaded_image env inst).2 = .ok →
        (process_uploaded_image env inst).1.cover_photo_processing_status
          = "complete")
    ∧ (process_uploaded_image env inst).1.cover_photo_processing_status
        ≠ "processing" := by
  by_cases h1 : env.temp_file_exists <;>
    by_cases h2 : env.image_valid <;>
      by_cases h3 : env.upload_ok <;>
        by_cases h4 : env.retries < max_retries <;>
          simp [process_uploaded_image, on_image_failure, hm, h1, h2, h3, h4]
            <;> omega

/-- Witness for `process_uploaded_image_failure_policy`: a missing temp file
with the retry budget spent ends with status `failed` and the structured
failure result. -/
theorem process_uploaded_image_failure_policy_witness :
    (process_uploaded_image
      { model_type := "event", temp_file_exists := false, image_valid := true,
        gps_strip_ok := true, upload_ok := true, retries := 3 }
      sampleEvent).1.cover_photo_processing_status = "failed"
    ∧ max_retries ≤ (3 : Nat) :=
  (process_uploaded_image_failure_policy
    { model_type := "event", temp_file_exists := false, image_valid := true,
      gps_strip_ok := true, upload_ok := true, retries := 3 }
    sampleEvent rfl).1 rfl

/-- An event whose 24h latch flag is already set is skipped entirely by the
24h loop: no messages, no change. -/
theorem step_24h_latched (now : Nat) (r : EventRec)
    (h : r.1.reminder_24h_sent = true) : step_24h now r = (r, 0) := by
  simp [step_24h, matches_24h, h]

/-- An event whose 1h latch flag is already set is skipped entirely by the
1h loop: no messages, no change. -/
theorem step_1h_latched (now : Nat) (r : EventRec)
    (h : r.1.reminder_1h_sent = true) : step_1h now r = (r, 0) := by
  simp [step_1h, matches_1h, h]

/-- After the 24h loop has processed an event, that event no longer matches
the 24h filter at the same `now`. -/
theorem matches_24h_after_step (now : Nat) (r : EventRec) :
    matches_24h now ((step_24h now r).1).1 = false := by
  by_cases h : matches_24h now r.1
  · have hstep : (step_24h now r).1 =
        ({ r.1 with reminder_24h_sent := true }, r.2) := by
      simp [step_24h, h]
    rw [hstep]
    simp [matches_24h]
  · have hstep : (step_24h now r).1 = r := by
      simp [step_24h, h]
    rw [hstep]
    simpa using h

/-- After the 1h loop has processed an event, that event no longer matches
the 1h filter at the same `now`. -/
theorem matches_1h_after_step (now : Nat) (r : EventRec) :
    matches_1h now ((step_1h now r).1).1 = false := by
  by_cases h : matches_1h now r.1
  · have hstep : (step_1h now r).1 =
        ({ r.1 with reminder_1h_sent := true }, r.2) := by
      simp [step_1h, h]
    rw [hstep]
    simp [matches_1h]
  · have hstep : (step_1h now r).1 = r := by
      simp [step_1h, h]
    rw [hstep]
    simpa using h

/-- The 1h loop only touches `reminder_1h_sent`, which the 24h filter does
not read. -/
theorem matches_24h_step_1h (now now' : Nat) (r : EventRec) :
    matches_24h now ((step_1h now' r).1).1 = matches_24h now r.1 := by
  by_cases h : matches_1h now' r.1 <;> simp [step_1h, h, matches_24h]

/-- Every row of the 24h pass's output is the step-image of an input row. -/
theorem run_24h_mem (now : Nat) (db : List EventRec) (r' : EventRec)
    (h : r' ∈ (run_24h now db).1) : ∃ r ∈ db, r' = (step_24h now r).1 := by
  induction db with
  | nil => simp [run_24h] at h
  | cons a rest ih =>
    simp only [run_24h, List.mem_cons] at h
    rcases h with h | h
    · exact ⟨a, by simp, h⟩
    · obtain ⟨r, hr, he⟩ := ih h
      exact ⟨r, by simp [hr], he⟩

/-- Every row of the 1h pass's output is the step-image of an input row. -/
theorem run_1h_mem (now : Nat) (db : List EventRec) (r' : EventRec)
    (h : r' ∈ (run_1h now db).1) : ∃ r ∈ db, r' = (step_1h now r).1 := by
  induction db with
  | nil => simp [run_1h] at h
  | cons a rest ih =>
    simp only [run_1h, List.mem_cons] at h
    rcases h with h | h
    · exact ⟨a, by simp, h⟩
    · obtain ⟨r, hr, he⟩ := ih h
      exact ⟨r, by simp [hr], he⟩

/-- A 24h pass over a table none of whose rows match is a no-op. -/
theorem run_24h_noop (now : Nat) (db : List EventRec)
    (h : ∀ r ∈ db, step_24h now r = (r, 0)) : run_24h now db = (db, 0) := by
  induction db with
  | nil => rfl
  | cons a rest ih =>
    have ha := h a (by simp)
    have ih' := ih (fun r hr => h r (by simp [hr]))
    simp [run_24h, ha, ih']

/-- A 1h pass over a table none of whose rows match is a no-op. -/
theorem run_1h_noop (now : Nat) (db : List EventRec)
    (h : ∀ r ∈ db, step_1h now r = (r, 0)) : run_1h now db = (db, 0) := by
  induction db with
  | nil => rfl
  | cons a rest ih =>
    have ha := h a (by simp)
    have ih' := ih (fun r hr => h r (by simp [hr]))
    simp [run_1h, ha, ih']

/-- Immediately re-running the whole reminder job on the table it produced
is a total no-op: every event either had its latch set by the first run or
did not qualify, so the second run sends zero messages and changes nothing. -/
theorem send_event_reminders_second_run (now : Nat) (db : List EventRec) :
    send_event_reminders now (send_event_reminders now db).1 =
      ((send_event_reminders now db).1, 0) := by
  have hmem : ∀ r' ∈ (send_event_reminders now db).1,
      matches_24h now r'.1 = false ∧ matches_1h now r'.1 = false := by
    intro r' h
    have h' : r' ∈ (run_1h now (run_24h now db).1).1 := h
    obtain ⟨r1, hr1, he1⟩ := run_1h_mem now _ r' h'
    obtain ⟨r0, hr0, he0⟩ := run_24h_mem now db r1 hr1
    subst he1; subst he0
    refine ⟨?_, matches_1h_after_step now _⟩
    rw [matches_24h_step_1h]
    exact matches_24h_after_step now r0
  have key : ∀ L : List EventRec,
      (∀ r' ∈ L, matches_24h now r'.1 = false ∧ matches_1h now r'.1 = false) →
      send_event_reminders now L = (L, 0) := by
    intro L hL
    have h24 : run_24h now L = (L, 0) :=
      run_24h_noop now L (fun r hr => by simp [step_24h, (hL r hr).1])
    have h1 : run_1h now L = (L, 0) :=
      run_1h_noop now L (fun r hr => by simp [step_1h, (hL r hr).2])
    simp [send_event_reminders, h24, h1]
  exact key _ hmem

/-- C5: the reminder flags are one-shot latches.  Any event row coming out
of a reminder-job run with its 24h (resp. 1h) flag set contributes no
messages and is left unchanged by the corresponding loop of any later run,
and re-running the whole job within the same window (same `now`) on the
table the first run produced sends zero messages and changes nothing. -/
theorem send_event_reminders_latch (db : List EventRec) (now now' : Nat) :
    (∀ r ∈ (send_event_reminders now db).1,
      (r.1.reminder_24h_sent = true → step_24h now' r = (r, 0)) ∧
      (r.1.reminder_1h_sent = true → step_1h now' r = (r, 0)))
    ∧ send_event_reminders now (send_event_reminders now db).1 =
        ((send_event_reminders now db).1, 0) :=
  ⟨fun r _ => ⟨fun h => step_24h_latched now' r h,
    fun h => step_1h_latched now' r h⟩,
   send_event_reminders_second_run now db⟩

/-- Witness for `send_event_reminders_latch`: one event inside the 24h
window at `now = 0` with two attending RSVPs; after the first run its latch
is set, a later 24h loop skips it, and the immediate second run is a no-op. -/
theorem send_event_reminders_latch_witness :
    step_24h 1234 ({ reminderEvent with reminder_24h_sent := true }, 2) =
      (({ reminderEvent with reminder_24h_sent := true }, 2), 0)
    ∧ send_event_reminders 0
        (send_event_reminders 0 [(reminderEvent, 2)]).1 =
        ((send_event_reminders 0 [(reminderEvent, 2)]).1, 0) :=
  ⟨((send_event_reminders_latch [(reminderEvent, 2)] 0 1234).1
      ({ reminderEvent with reminder_24h_sent := true }, 2) (by decide)).1 rfl,
   (send_event_reminders_latch [(reminderEvent, 2)] 0 1234).2⟩

/-- C3, counterexample to the claim as stated for `N = 0`: an event with
`max_attendees = 0` and 0 distinct attending users (= N) accepts a further
non-creator "attending" submission instead of rejecting it — Python's
`if self.max_attendees:` treats capacity 0 like NULL (unlimited). -/
theorem rsvp_capacity_zero_counterexample :
    capZeroEvent.max_attendees = some 0
    ∧ attendee_count ([] : List (Nat × String)) = 0
    ∧ rsvp_event capZeroEvent 1 "attending" [] ⟨[], []⟩ =
        (.accepted "attending", ⟨[(1, "attending")], []⟩) := by
  refine ⟨rfl, rfl, rfl⟩

/-- C3 (amended, `N ≥ 1`): for an event with positive capacity `N` and at
least `N` attending RSVPs, a non-creator user without an existing
"attending" RSVP submitting "attending" is rejected with the event-full
error and nothing is written, while a user who already holds an "attending"
RSVP may re-submit "attending" and is accepted (re-submission never counts
against capacity). -/
theorem rsvp_capacity (e : Event) (uid : Nat) (post : List (Nat × String))
    (st : RSVPState) (N : Nat)
    (hcreator : e.created_by ≠ uid)
    (hallow : e.allow_rsvp = true)
    (hans : ∀ q ∈ e.questions, q.is_required = true →
      submitted_answer post q.id ≠ "")
    (hmax : e.max_attendees = some N) (hN : 1 ≤ N)
    (hcount : N ≤ attendee_count st.rsvps) :
    ((st.rsvps.find? (fun r => r.1 == uid)).map Prod.snd ≠ some "attending" →
      rsvp_event e uid "attending" post st = (.event_full, st))
    ∧ ((st.rsvps.find? (fun r => r.1 == uid)).map Prod.snd = some "attending" →
      (rsvp_event e uid "attending" post st).1 = .accepted "attending") := by
  have hN0 : (N == 0) = false := by
    simp
    omega
  have hfull : is_full e st.rsvps = true := by
    simp [is_full, hmax, hN0, hcount]
  have hmiss : e.questions.filter
      (fun q => q.is_required && submitted_answer post q.id == "") = [] := by
    rw [List.filter_eq_nil_iff]
    intro q hq hcontra
    simp only [Bool.and_eq_true, beq_iff_eq] at hcontra
    exact hans q hq hcontra.1 hcontra.2
  constructor
  · intro hnot
    have hex : (match st.rsvps.find? (fun r => r.1 == uid) with
        | some r => r.2 == "attending"
        | none => false) = false := by
      cases hfind : st.rsvps.find? (fun r => r.1 == uid) with
      | none => rfl
      | some r =>
        rw [hfind] at hnot
        simp only [Option.map_some'] at hnot
        simp only [beq_eq_false_iff_ne]
        exact fun hr => hnot (by rw [hr])
    simp [rsvp_event, hcreator, hallow, hmiss, hfull, hex]
  · intro hyes
    have hex : (match st.rsvps.find? (fun r => r.1 == uid) with
        | some r => r.2 == "attending"
        | none => false) = true := by
      cases hfind : st.rsvps.find? (fun r => r.1 == uid) with
      | none => rw [hfind] at hyes; simp at hyes
      | some r =>
        rw [hfind] at hyes
        simp only [Option.map_some', Option.some.injEq] at hyes
        simp [hyes]
    simp [rsvp_event, hcreator, hallow, hmiss, hfull, hex]

/-- Witness for `rsvp_capacity` on `capOneEvent` with one attending RSVP:
user 2 is rejected as event-full; user 1 (already attending) re-submits and
is accepted. -/
theorem rsvp_capacity_witness :
    rsvp_event capOneEvent 2 "attending" [] ⟨[(1, "attending")], []⟩ =
      (.event_full, ⟨[(1, "attending")], []⟩)
    ∧ (rsvp_event capOneEvent 1 "attending" []
        ⟨[(1, "attending")], []⟩).1 = .accepted "attending" :=
  ⟨(rsvp_capacity capOneEvent 2 [] ⟨[(1, "attending")], []⟩ 1 (by decide)
      rfl (by simp [capOneEvent, sampleEvent]) rfl (by decide)
      (by decide)).1 (by decide),
   (rsvp_capacity capOneEvent 1 [] ⟨[(1, "attending")], []⟩ 1 (by decide)
      rfl (by simp [capOneEvent, sampleEvent]) rfl (by decide)
      (by decide)).2 (by decide)⟩

/-- C8, counterexample to the claim as stated: the event *creator*
submitting "attending" with the required question unanswered is not
rejected — the view short-circuits to a silent no-op before any validation
(views.py:595-596) — though no RSVP row is written either. -/
theorem rsvp_creator_bypasses_required_counterexample :
    submitted_answer [] 1 = ""
    ∧ requiredQuestionEvent.questions.map Question.is_required = [true]
    ∧ requiredQuestionEvent.created_by = 0
    ∧ rsvp_event requiredQuestionEvent 0 "attending" [] ⟨[], []⟩ =
        (.creator_noop, ⟨[], []⟩)
    ∧ ∀ m, RSVPOutcome.creator_noop ≠ RSVPOutcome.missing_required m := by
  refine ⟨by decide, rfl, rfl, by decide, fun m h => by cases h⟩

/-- C8 (amended, non-creator submissions): a submission with status
"attending" or "maybe" by a user other than the creator, on an event with a
required question whose submitted answer is empty, is always rejected (by
the closed-RSVP, maybe-disallowed or missing-required check) and writes
nothing; and a "not_attending" submission is never rejected for missing
answers. -/
theorem rsvp_required_questions (e : Event) (uid : Nat) (status : String)
    (post : List (Nat × String)) (st : RSVPState) :
    ((e.created_by ≠ uid) → (status = "attending" ∨ status = "maybe") →
      (∃ q ∈ e.questions, q.is_required = true
        ∧ submitted_answer post q.id = "") →
      (∀ s, (rsvp_event e uid status post st).1 ≠ .accepted s)
      ∧ (rsvp_event e uid status post st).2 = st)
    ∧ (∀ m, (rsvp_event e uid "not_attending" post st).1
        ≠ .missing_required m) := by
  constructor
  · intro hcreator hst hq
    obtain ⟨q, hqmem, hreq, hempty⟩ := hq
    have hqne : e.questions ≠ [] := by
      intro h0
      rw [h0] at hqmem
      cases hqmem
    have hmissne : e.questions.filter
        (fun q => q.is_required && submitted_answer post q.id == "") ≠ [] := by
      intro hnil
      have := List.filter_eq_nil_iff.mp hnil q hqmem
      simp [hreq, hempty] at this
    rcases hst with rfl | rfl
    · by_cases hallow : e.allow_rsvp
      · simp [rsvp_event, hcreator, hallow, List.isEmpty_iff, hqne, hmissne]
      · simp [rsvp_event, hcreator, hallow]
    · by_cases hallow : e.allow_rsvp
      · by_cases hmaybe : e.allow_maybe_rsvp
        · simp [rsvp_event, hcreator, hallow, hmaybe, List.isEmpty_iff,
            hqne, hmissne]
        · simp [rsvp_event, hcreator, hallow, hmaybe]
      · simp [rsvp_event, hcreator, hallow]
  · intro m
    by_cases hcreator : e.created_by = uid
    · simp [rsvp_event, hcreator]
    · by_cases hallow : e.allow_rsvp
      · simp [rsvp_event, hcreator, hallow]
      · cases hfind : st.rsvps.find? (fun r => r.1 == uid) with
        | none => simp [rsvp_event, hcreator, hallow, hfind]
        | some r => simp [rsvp_event, hcreator, hallow, hfind]

/-- Witness for `rsvp_required_questions`: a non-creator "attending"
submission with the required answer empty is not accepted and writes
nothing. -/
theorem rsvp_required_questions_witness :
    (∀ s, (rsvp_event requiredQuestionEvent 1 "attending" []
      ⟨[], []⟩).1 ≠ .accepted s)
    ∧ (rsvp_event requiredQuestionEvent 1 "attending" [] ⟨[], []⟩).2 =
        ⟨[], []⟩ :=
  (rsvp_required_questions requiredQuestionEvent 1 "attending" []
    ⟨[], []⟩).1 (by decide) (Or.inl rfl)
    ⟨{ id := 1, text := "Dietary restrictions?", is_required := true },
      by decide, rfl, by decide⟩

/-- Replacing the matching row rewrites what the keyed lookup finds. -/
theorem find_map_replace (ans : List (Nat × Nat × String)) (uid qid : Nat)
    (t : String)
    (hf : (ans.find? (fun a => a.1 == uid && a.2.1 == qid)).isSome = true) :
    (ans.map (fun a => if a.1 == uid && a.2.1 == qid then (uid, qid, t)
      else a)).find? (fun a => a.1 == uid && a.2.1 == qid)
      = some (uid, qid, t) := by
  induction ans with
  | nil => simp at hf
  | cons a rest ih =>
    by_cases ha : (a.1 == uid && a.2.1 == qid) = true
    · simp [List.find?, ha]
    · have hf' : (rest.find?
          (fun a => a.1 == uid && a.2.1 == qid)).isSome = true := by
        simpa [List.find?, ha] using hf
      simpa [List.find?, ha] using ih hf'

/-- A keyed find over a list with no matching row ignores an appended row
that does not match either. -/
theorem find?_append_no_match (l : List (Nat × Nat × String))
    (x : Nat × Nat × String) (p : Nat × Nat × String → Bool)
    (hx : p x = false) : (l ++ [x]).find? p = l.find? p := by
  induction l with
  | nil => simp [List.find?, hx]
  | cons a rest ih =>
    by_cases ha : p a = true
    · simp [List.find?, ha]
    · simpa [List.find?, ha] using ih

/-- `upsert_answer` stores exactly the given text under its key. -/
theorem get_answer_upsert_self (ans : List (Nat × Nat × String))
    (uid qid : Nat) (t : String) :
    get_answer (upsert_answer ans uid qid t) uid qid = some t := by
  by_cases hf : (ans.find? (fun a => a.1 == uid && a.2.1 == qid)).isSome = true
  · unfold get_answer upsert_answer
    rw [if_pos hf, find_map_replace ans uid qid t hf]
    rfl
  · unfold get_answer upsert_answer
    rw [if_neg hf]
    have hnone : ans.find? (fun a => a.1 == uid && a.2.1 == qid) = none := by
      cases h : ans.find? (fun a => a.1 == uid && a.2.1 == qid) with
      | none => rfl
      | some a => rw [h] at hf; simp at hf
    have happ : (ans ++ [(uid, qid, t)]).find?
        (fun a => a.1 == uid && a.2.1 == qid) = some (uid, qid, t) := by
      induction ans with
      | nil => simp [List.find?]
      | cons a rest ih =>
        by_cases ha : (a.1 == uid && a.2.1 == qid) = true
        · rw [List.find?] at hnone
          simp [ha] at hnone
        · have hnone' : rest.find?
              (fun a => a.1 == uid && a.2.1 == qid) = none := by
            simpa [List.find?, ha] using hnone
          simpa [List.find?, ha] using ih (by simp [hnone']) hnone'
    rw [happ]
    rfl

/-- `upsert_answer` at one question leaves the lookup of any other question
of the same user unchanged. -/
theorem get_answer_upsert_other (ans : List (Nat × Nat × String))
    (uid qid : Nat) (t : String) (qid' : Nat) (hne : qid' ≠ qid) :
    get_answer (upsert_answer ans uid qid t) uid qid'
      = get_answer ans uid qid' := by
  have hq' : (qid == qid') = false := beq_eq_false_iff_ne.mpr (Ne.symm hne)
  unfold get_answer upsert_answer
  split
  · have key : ∀ l : List (Nat × Nat × String),
        (l.map (fun a => if a.1 == uid && a.2.1 == qid then (uid, qid, t)
          else a)).find? (fun a => a.1 == uid && a.2.1 == qid')
          = l.find? (fun a => a.1 == uid && a.2.1 == qid') := by
      intro l
      induction l with
      | nil => rfl
      | cons a rest ih =>
        by_cases ha : (a.1 == uid && a.2.1 == qid) = true
        · have ha2 : a.2.1 = qid := by
            simp only [Bool.and_eq_true, beq_iff_eq] at ha
            exact ha.2
          have hp : (a.1 == uid && a.2.1 == qid') = false := by
            rw [ha2]
            simp [hq']
          simpa [List.find?, ha, hp, hq'] using ih
        · by_cases hp : (a.1 == uid && a.2.1 == qid') = true
          · simp [List.find?, ha, hp]
          · simpa [List.find?, ha, hp] using ih
    rw [key]
  · rw [find?_append_no_match _ _ _ (by simp [hq'])]

/-- `delete_answer` removes the keyed row. -/
theorem get_answer_delete_self (ans : List (Nat × Nat × String))
    (uid qid : Nat) :
    get_answer (delete_answer ans uid qid) uid qid = none := by
  unfold get_answer delete_answer
  have key : (ans.filter (fun a => !(a.1 == uid && a.2.1 == qid))).find?
      (fun a => a.1 == uid && a.2.1 == qid) = none := by
    induction ans with
    | nil => rfl
    | cons a rest ih =>
      by_cases ha : (a.1 == uid && a.2.1 == qid) = true
      · rw [List.filter_cons_of_neg (by simp [ha])]
        exact ih
      · have ha' : (a.1 == uid && a.2.1 == qid) = false := by simpa using ha
        rw [List.filter_cons_of_pos (by simp [ha])]
        simp only [List.find?_cons, ha']
        exact ih
  rw [key]
  rfl

/-- `delete_answer` at one question leaves the lookup of any other question
of the same user unchanged. -/
theorem get_answer_delete_other (ans : List (Nat × Nat × String))
    (uid qid qid' : Nat) (hne : qid' ≠ qid) :
    get_answer (delete_answer ans uid qid) uid qid'
      = get_answer ans uid qid' := by
  have hq' : (qid == qid') = false := beq_eq_false_iff_ne.mpr (Ne.symm hne)
  unfold get_answer delete_answer
  have key : (ans.filter (fun a => !(a.1 == uid && a.2.1 == qid))).find?
      (fun a => a.1 == uid && a.2.1 == qid')
      = ans.find? (fun a => a.1 == uid && a.2.1 == qid') := by
    induction ans with
    | nil => rfl
    | cons a rest ih =>
      by_cases ha : (a.1 == uid && a.2.1 == qid) = true
      · have ha2 : a.2.1 = qid := by
          simp only [Bool.and_eq_true, beq_iff_eq] at ha
          exact ha.2
        have hp : (a.1 == uid && a.2.1 == qid') = false := by
          rw [ha2]
          simp [hq']
        rw [List.filter_cons_of_neg (by simp [ha])]
        simp only [List.find?_cons, hp]
        exact ih
      · rw [List.filter_cons_of_pos (by simp [ha])]
        by_cases hp : (a.1 == uid && a.2.1 == qid') = true
        · simp only [List.find?_cons, hp]
        · have hp' : (a.1 == uid && a.2.1 == qid') = false := by simpa using hp
          simp only [List.find?_cons, hp']
          exact ih
  rw [key]

/-- Deleting all of one user's answers empties every lookup for that user. -/
theorem get_answer_delete_all (ans : List (Nat × Nat × String))
    (uid qid : Nat) :
    get_answer (delete_all_answers ans uid) uid qid = none := by
  unfold get_answer delete_all_answers
  have key : (ans.filter (fun a => !(a.1 == uid))).find?
      (fun a => a.1 == uid && a.2.1 == qid) = none := by
    induction ans with
    | nil => rfl
    | cons a rest ih =>
      by_cases ha : (a.1 == uid) = true
      · rw [List.filter_cons_of_neg (by simp [ha])]
        exact ih
      · have ha' : (a.1 == uid && a.2.1 == qid) = false := by
          simp [ha]
        rw [List.filter_cons_of_pos (by simp [ha])]
        simp only [List.find?_cons, ha']
        exact ih
  rw [key]
  rfl

/-- One step of the answer loop, unfolded. -/
theorem apply_answers_cons (q : Question) (qs : List Question)
    (post : List (Nat × String)) (uid : Nat)
    (ans : List (Nat × Nat × String)) :
    apply_answers (q :: qs) post uid ans =
      apply_answers qs post uid
        (if submitted_answer post q.id != "" || q.is_required then
          upsert_answer ans uid q.id (submitted_answer post q.id)
        else delete_answer ans uid q.id) := rfl

/-- The answer loop does not touch questions outside its list. -/
theorem apply_answers_other (qs : List Question) (post : List (Nat × String))
    (uid qid : Nat) :
    ∀ ans, qid ∉ qs.map Question.id →
      get_answer (apply_answers qs post uid ans) uid qid
        = get_answer ans uid qid := by
  induction qs with
  | nil => intro ans _; rfl
  | cons q rest ih =>
    intro ans h
    have hq : qid ≠ q.id := fun he => h (by simp [he])
    have hrest : qid ∉ rest.map Question.id := fun hm => h (by simp [hm])
    rw [apply_answers_cons, ih _ hrest]
    by_cases hc : (submitted_answer post q.id != "" || q.is_required) = true
    · rw [if_pos hc]
      exact get_answer_upsert_other ans uid q.id _ qid hq
    · rw [if_neg hc]
      exact get_answer_delete_other ans uid q.id qid hq

/-- The answer loop's per-question postcondition: with pairwise-distinct
question ids, each question ends with its answer stored iff the submitted
text is non-empty or the question is required. -/
theorem apply_answers_spec (qs : List Question) (post : List (Nat × String))
    (uid : Nat) :
    ∀ ans, (qs.map Question.id).Nodup → ∀ q ∈ qs,
      get_answer (apply_answers qs post uid ans) uid q.id =
        (if submitted_answer post q.id ≠ "" ∨ q.is_required = true
         then some (submitted_answer post q.id) else none) := by
  induction qs with
  | nil => intro ans _ q hq; cases hq
  | cons q0 rest ih =>
    intro ans hnodup q hq
    rw [apply_answers_cons]
    rcases List.mem_cons.mp hq with rfl | hmem
    · have hnotin : q.id ∉ rest.map Question.id := by
        simp only [List.map_cons, List.nodup_cons] at hnodup
        exact hnodup.1
      rw [apply_answers_other rest post uid q.id _ hnotin]
      by_cases hc : (submitted_answer post q.id != "" || q.is_required) = true
      · have hc' : submitted_answer post q.id ≠ "" ∨ q.is_required = true := by
          simpa using hc
        rw [if_pos hc, get_answer_upsert_self, if_pos hc']
      · have hc' : ¬(submitted_answer post q.id ≠ ""
            ∨ q.is_required = true) := by
          simpa using hc
        rw [if_neg hc, get_answer_delete_self, if_neg hc']
    · have hnodup' : (rest.map Question.id).Nodup := by
        simp only [List.map_cons, List.nodup_cons] at hnodup
        exact hnodup.2
      exact ih _ hnodup' q hmem

/-- C9: after an accepted RSVP submission, if the final status is
"not_attending" every answer of this RSVP is deleted; otherwise each event
question holds exactly the submitted text when that text is non-empty or
the question is required, and holds nothing (stale answers deleted) when
the text is empty and the question optional. -/
theorem rsvp_answers (e : Event) (uid : Nat) (status : String)
    (post : List (Nat × String)) (st : RSVPState) (s : String)
    (st' : RSVPState)
    (hrun : rsvp_event e uid status post st = (.accepted s, st'))
    (hnodup : (e.questions.map Question.id).Nodup) :
    (s = "not_attending" → ∀ qid, get_answer st'.answers uid qid = none)
    ∧ (s ≠ "not_attending" → ∀ q ∈ e.questions,
        get_answer st'.answers uid q.id =
          (if submitted_answer post q.id ≠ "" ∨ q.is_required = true
           then some (submitted_answer post q.id) else none)) := by
  simp only [rsvp_event] at hrun
  split at hrun
  · simp at hrun
  · split at hrun
    · simp at hrun
    · split at hrun
      · simp at hrun
      · split at hrun
        · simp at hrun
        · split at hrun
          · simp at hrun
          · split at hrun
            · simp at hrun
            · have hs : status = s := by
                have hps := congrArg Prod.fst hrun
                simpa using hps
              subst hs
              have hsn := congrArg Prod.snd hrun
              simp only at hsn
              constructor
              · intro hna qid
                subst hna
                rw [← hsn]
                simpa using get_answer_delete_all st.answers uid qid
              · intro hne q hq
                have hbeq : (status == "not_attending") = false :=
                  beq_eq_false_iff_ne.mpr hne
                rw [← hsn]
                simpa [hbeq] using
                  apply_answers_spec e.questions post uid st.answers hnodup q hq

/-- Witness for `rsvp_answers` on `answersEvent` (optional question 1 left
empty, required question 2 answered "abc"): the stored answer for question 2
is exactly the submitted text. -/
theorem rsvp_answers_witness :
    get_answer ((⟨[(1, "attending")], [(1, 2, "abc")]⟩ : RSVPState).answers) 1
      (Question.mk 2 "Song request?" true).id =
      (if submitted_answer [(1, ""), (2, "abc")]
            (Question.mk 2 "Song request?" true).id ≠ ""
          ∨ (Question.mk 2 "Song request?" true).is_required = true
        then some (submitted_answer [(1, ""), (2, "abc")]
          (Question.mk 2 "Song request?" true).id)
        else none) :=
  (rsvp_answers answersEvent 1 "attending" [(1, ""), (2, "abc")] ⟨[], []⟩
    "attending" ⟨[(1, "attending")], [(1, 2, "abc")]⟩ (by decide)
    (by decide)).2 (by decide) (Question.mk 2 "Song request?" true) (by decide)

end AxeEvents
